import Mathlib

/-!
Verification development for the Director web-search component:
`src/backend/director/tools/serp.py` (SerpAPI provider) and
`src/backend/director/agents/web_search_agent.py` (WebSearchAgent orchestrator).

The Python code is shallowly embedded: dictionaries with the five recognized
result keys become a record whose fields distinguish "key absent" from
"key present with value None"; exceptions become an `Except` outcome where
`Except.error` means the exception propagates uncaught past the function;
the single HTTP call is a parameter (`HttpOutcome`) describing what the
transport layer returned after the session's internal retries.
-/

set_option autoImplicit false

namespace Director

/-! ## Python string primitives

`strContains s pat` is Python `pat in s` (substring containment);
`strStartsWith s pat` is Python `s.startswith(pat)`.
-/

/-- Substring test on character lists: `pat` occurs inside `l`. -/
def listInfixB : List Char → List Char → Bool
  | pat, [] => pat.isEmpty
  | pat, a :: rest => List.isPrefixOf pat (a :: rest) || listInfixB pat rest

/-- Python `pat in s` for strings: substring containment. -/
def strContains (s pat : String) : Bool :=
  listInfixB pat.toList s.toList

/-- Python `s.startswith(pat)`. -/
def strStartsWith (s pat : String) : Bool :=
  List.isPrefixOf pat.toList s.toList

/-! ## Python values and dictionary lookups

A raw SerpAPI result is a JSON object. For each of the five keys the code
reads, a field of type `Option (Option String)` records: `none` = key absent,
`some none` = key present with value `None`, `some (some s)` = string value.
The `link` and `video_link` keys are only ever read with `.get(key, "")`
and fed to string operations, so they are modelled as `Option String`
(`none` = absent); a present-`None` value there would crash the Python code
and is outside the modelled domain.
-/

/-- Python `d.get(key, default)` where the stored value may be `None`. -/
def dictGetD (o : Option (Option String)) (d : String) : Option String :=
  match o with
  | none => some d
  | some v => v

/-- Python `d.get(key)` (default `None`). -/
def dictGet (o : Option (Option String)) : Option String :=
  o.getD none

/-- Python truthiness for a `str`-or-`None` value. -/
def pyTruthy : Option String → Bool
  | none => false
  | some s => !(s == "")

/-- Python `a or b` on `str`-or-`None` values. -/
def pyOr (a b : Option String) : Option String :=
  if pyTruthy a then a else b

/-- A raw result object from the provider's `video_results` array,
restricted to the five keys the code reads. -/
structure RawResult where
  link : Option String
  video_link : Option String
  title : Option (Option String)
  thumbnail : Option (Option String)
  duration : Option (Option String)
  deriving Repr, DecidableEq

/-! ## SerpAPI provider (`src/backend/director/tools/serp.py`) -/

/-- The query parameters built by `SerpAPI.search_videos`. -/
structure SerpParams where
  q : String
  tbm : String
  num : Nat
  hl : String
  gl : String
  api_key : String
  tbs : Option String
  deriving Repr, DecidableEq

/-- The `duration_mapping` dict in `search_videos`. -/
def duration_mapping : String → Option String
  | "short" => some "dur:s"
  | "medium" => some "dur:m"
  | "long" => some "dur:l"
  | _ => none

/-- One step of the result filter inside `search_videos`: drop a result
whose link contains "channel" or "user"; keep it if its link contains
"youtube.com/watch" or it carries a truthy `video_link`; a kept record is
rebuilt as a dict with exactly the five keys, `link` and `video_link`
defaulted to `""`, the other three to `None`. -/
def filterOne (r : RawResult) : Option RawResult :=
  let link := r.link.getD ""
  let video_link := r.video_link.getD ""
  if strContains link "channel" || strContains link "user" then
    none
  else if strContains link "youtube.com/watch" || !(video_link == "") then
    some { link := some link
           video_link := some video_link
           title := some (dictGet r.title)
           thumbnail := some (dictGet r.thumbnail)
           duration := some (dictGet r.duration) }
  else
    none

/-- The `filtered_results` loop of `search_videos` over the raw array. -/
def filterResults (raw : List RawResult) : List RawResult :=
  raw.filterMap filterOne

/-- Kinds of `requests.exceptions.RequestException` the transport can raise
(after the session's internal retries). -/
inductive ReqExcKind where
  | timeout
  | httpError (status : Nat)
  | connectionError
  | retryError
  deriving Repr, DecidableEq

/-- Printable form of a transport exception (stands in for Python `str(e)`). -/
def reqExcStr : ReqExcKind → String
  | .timeout => "Timeout"
  | .httpError s => "HTTPError " ++ toString s
  | .connectionError => "ConnectionError"
  | .retryError => "RetryError"

/-- Python exceptions relevant to these two files. -/
inductive PyExc where
  | requestException (k : ReqExcKind)
  | runtimeError (msg : String)
  | valueError (msg : String)
  deriving Repr, DecidableEq

/-- Whether an exception is an instance of
`requests.exceptions.RequestException` (the only class the orchestrator's
`except` clause catches). -/
def isRequestException : PyExc → Bool
  | .requestException _ => true
  | _ => false

/-- Outcome of `self.session.get(...)` followed by `raise_for_status()` and
JSON parsing: either the parsed `video_results` array (empty if the key is
absent), or a `RequestException` of some kind. -/
inductive HttpOutcome where
  | ok (video_results : List RawResult)
  | exc (k : ReqExcKind)
  deriving Repr, DecidableEq

/-- Behavior of one `search_videos` call: either it raises before issuing
any network request, or it issues exactly one request with the given
parameters and then either returns the filtered results or raises. -/
inductive SearchCall where
  | noRequest (e : PyExc)
  | request (params : SerpParams) (outcome : Except PyExc (List RawResult))
  deriving Repr

/-- The body of the `try` block in `search_videos`: perform the GET, raise
for status, parse, filter; any `RequestException` is caught and re-raised
as `RuntimeError` (so the original exception class is lost). -/
def serpTryBlock (http : HttpOutcome) : Except PyExc (List RawResult) :=
  match http with
  | .ok raws => .ok (filterResults raws)
  | .exc k => .error (.runtimeError ("Error during SerpAPI video search: " ++ reqExcStr k))

/-- `SerpAPI.search_videos(query, count, duration)`. `duration` is the
Python argument (`None` or a string); `http` is what the transport returns
if a request is issued. Mirrors the source order: build params, apply the
duration guard (`if duration:` — falsy for both `None` and `""`), then
issue the request. -/
def search_videos (api_key query : String) (count : Nat) (duration : Option String)
    (http : HttpOutcome) : SearchCall :=
  let base : SerpParams :=
    { q := query, tbm := "vid", num := count, hl := "en", gl := "us"
      api_key := api_key, tbs := none }
  match duration with
  | some d =>
    if !(d == "") then
      match duration_mapping d with
      | none => .noRequest (.valueError ("Invalid duration value: " ++ d))
      | some code => .request { base with tbs := some code } (serpTryBlock http)
    else
      .request base (serpTryBlock http)
  | none => .request base (serpTryBlock http)

/-! ## `urllib.parse.urlparse`, restricted to what the orchestrator reads

The orchestrator only reads `netloc` and `path` of the parsed URL. The
model handles the `scheme://netloc/path` shape the pipeline produces:
everything after the first `://` up to the first `/`, `?` or `#` is the
netloc; from that `/` (exclusive of any query/fragment) is the path. A URL
without `://` has empty netloc and is all path.
-/

/-- Split a character list at the first occurrence of `pat`, returning the
part before and the part after. -/
def splitAtPat (pat : List Char) : List Char → Option (List Char × List Char)
  | [] => if pat.isEmpty then some ([], []) else none
  | a :: rest =>
    if List.isPrefixOf pat (a :: rest) then
      some ([], (a :: rest).drop pat.length)
    else
      match splitAtPat pat rest with
      | some (pre, post) => some (a :: pre, post)
      | none => none

/-- `urlparse(url).netloc` and `urlparse(url).path` as a pair. -/
def urlNetlocPath (url : String) : String × String :=
  match splitAtPat "://".toList url.toList with
  | none => ("", url)
  | some (_, rest) =>
    let netloc := rest.takeWhile fun c => !(c == '/' || c == '?' || c == '#')
    let path := (rest.dropWhile fun c => !(c == '/')).takeWhile fun c => !(c == '?' || c == '#')
    (String.mk netloc, String.mk path)

/-- `urlparse(url).netloc`. -/
def urlNetloc (url : String) : String := (urlNetlocPath url).1

/-- `urlparse(url).path`. -/
def urlPath (url : String) : String := (urlNetlocPath url).2

/-! ## Orchestrator data model (`director.core.session` types as used here) -/

/-- `MsgStatus` values used by the agent. -/
inductive MsgStatus where
  | progress
  | success
  | error
  deriving Repr, DecidableEq

/-- A `VideoData` record. `name` is `Option String` because the code can
pass Python `None` as the name (see the title-handling theorems). -/
structure VideoData where
  external_url : String
  name : Option String
  thumbnail_url : Option String
  collection_id : Option String
  deriving Repr, DecidableEq

/-- The `VideosContent` payload at one `push_update()`: the snapshot the
caller observes. -/
structure VideosContent where
  status : MsgStatus
  status_message : String
  videos : List VideoData
  deriving Repr, DecidableEq

/-- `AgentStatus` of the returned `AgentResponse`. -/
inductive AgentStatus where
  | SUCCESS
  | ERROR
  deriving Repr, DecidableEq

/-- The `AgentResponse` returned by `run`; `data` holds the uploaded videos
(empty when the response carries no `data`). -/
structure AgentResponse where
  status : AgentStatus
  message : String
  data : List VideoData
  deriving Repr, DecidableEq

/-- One run observed from outside: the ordered snapshots pushed via
`push_update()`, and either the returned `AgentResponse` or an exception
that propagates uncaught out of the agent. -/
structure RunOutput where
  snapshots : List VideosContent
  response : Except PyExc AgentResponse
  deriving Repr

/-- The placeholder `VideoData` appended `count` times before the search. -/
def placeholder : VideoData :=
  { external_url := "", name := some "Loading...", thumbnail_url := none
    collection_id := none }

/-! ## Result reconciliation (`WebSearchAgent._handle_video_search`) -/

/-- `external_url = video.get("video_link") or video.get("link")`. The
`getD ""` totalizes the (unreached for provider-filtered records) case
where both keys are absent and Python would crash in `urlparse`. -/
def extUrl (r : RawResult) : String :=
  (pyOr r.video_link r.link).getD ""

/-- The skip test re-applied by the orchestrator: youtube netloc and a
path starting with "/channel/", "/user/" or "/c/". -/
def isNonVideoYoutube (url : String) : Bool :=
  strContains (urlNetloc url) "youtube.com" &&
    (["/channel/", "/user/", "/c/"].any fun p => strStartsWith (urlPath url) p)

/-- The `VideoData` constructed for an accepted raw result. Note
`video.get("title", "Untitled Video")`: the default applies only when the
`"title"` key is absent, not when it is present with value `None`. -/
def mkVideoData (collection_id : Option String) (r : RawResult) : VideoData :=
  { external_url := extUrl r
    name := dictGetD r.title "Untitled Video"
    thumbnail_url := dictGet r.thumbnail
    collection_id := collection_id }

/-- One iteration of the `for idx, video in enumerate(results)` loop body,
transforming the `(videos, uploaded)` state. -/
def processResult (collection_id : Option String) (state : List VideoData × List VideoData)
    (idx : Nat) (r : RawResult) : List VideoData × List VideoData :=
  let (videos, uploaded) := state
  if idx < videos.length then
    if isNonVideoYoutube (extUrl r) then
      (videos, uploaded)
    else
      let vd := mkVideoData collection_id r
      (videos.set idx vd, uploaded ++ [vd])
  else
    (videos, uploaded)

/-- The whole reconciliation loop: `idx` advances by one for every raw
result, whether or not it was skipped (Python `enumerate`). -/
def reconcile (collection_id : Option String) : List RawResult → Nat →
    List VideoData × List VideoData → List VideoData × List VideoData
  | [], _, state => state
  | r :: rest, idx, state =>
    reconcile collection_id rest (idx + 1) (processResult collection_id state idx r)

/-! ## Retry policy (`SerpAPI.__init__`)

The source configures `urllib3.util.retry.Retry(total=3, backoff_factor=1,
status_forcelist=[429, 500, 502, 503, 504])` on the session. The retry
executor itself lives in the urllib3 library, outside this repository.
-/

/-- The `Retry(...)` configuration built in `SerpAPI.__init__`. -/
structure RetryConfig where
  total : Nat
  backoff_factor : Nat
  status_forcelist : List Nat
  deriving Repr, DecidableEq

/-- The configuration values from the source. -/
def serpRetryConfig : RetryConfig :=
  { total := 3, backoff_factor := 1, status_forcelist := [429, 500, 502, 503, 504] }

/-- What one HTTP attempt yields: a transport-level failure (connection
error / timeout) or a response with a status code. -/
inductive AttemptResult where
  | transportFailure
  | status (code : Nat)
  deriving Repr, DecidableEq

/-- Modelled from the spec: whether the urllib3 retry executor (library
code, not in src/) retries an attempt outcome under a configuration —
transport-level failures always, response statuses only when in
`status_forcelist`. -/
def retriable (cfg : RetryConfig) : AttemptResult → Bool
  | .transportFailure => true
  | .status c => cfg.status_forcelist.contains c

/-- Modelled from the spec: the urllib3 retry loop (library code, not in
src/). `attempts i` is the outcome of the i-th attempt; `fuel` is the
remaining retry budget. Returns (number of attempts made, final response
status, or `none` when the budget is exhausted and the session raises a
`RetryError`). -/
def retryGo (cfg : RetryConfig) (attempts : Nat → AttemptResult) :
    Nat → Nat → Nat × Option Nat
  | fuel, i =>
    match attempts i with
    | .status c =>
      if cfg.status_forcelist.contains c then
        match fuel with
        | 0 => (i + 1, none)
        | fuel + 1 => retryGo cfg attempts fuel (i + 1)
      else
        (i + 1, some c)
    | .transportFailure =>
      match fuel with
      | 0 => (i + 1, none)
      | fuel + 1 => retryGo cfg attempts fuel (i + 1)

/-- Modelled from the spec: a session GET under the configured retry
policy — the initial attempt plus up to `cfg.total` retries. -/
def runWithRetries (cfg : RetryConfig) (attempts : Nat → AttemptResult) :
    Nat × Option Nat :=
  retryGo cfg attempts cfg.total 0

/-- Modelled from the spec: exponential backoff delay before the n-th
retry (n ≥ 1) with the configured factor — 1s, 2s, 4s for factor 1. -/
def backoffTime (cfg : RetryConfig) (n : Nat) : Nat :=
  cfg.backoff_factor * 2 ^ (n - 1)

/-- Map the session-with-retries result to the transport outcome that
`search_videos` observes: exhausted budget becomes a `RetryError` (a
`RequestException`); an error status survives `raise_for_status()` as an
`HTTPError`; a 2xx/3xx response parses to the body. -/
def sessionOutcome (res : Nat × Option Nat) (body : List RawResult) : HttpOutcome :=
  match res.2 with
  | none => .exc .retryError
  | some c => if 400 ≤ c then .exc (.httpError c) else .ok body

/-! ## Error classification and the orchestrator run -/

/-- The `except requests.exceptions.RequestException` handler's message
classification in `_handle_video_search`. -/
def classifyReqExc : ReqExcKind → String
  | .timeout => "The search is taking longer than expected. Please try again."
  | .httpError 429 => "Rate limit exceeded. Please try again in a few minutes."
  | _ => "An error occurred during the video search."

/-- `WebSearchAgent._handle_video_search`. Emits the pending snapshot with
`count` placeholders, calls `search_videos`, reconciles, and emits one
terminal snapshot — except that an exception that is not a
`requests.exceptions.RequestException` is not caught: it propagates with
no terminal snapshot emitted. -/
def handle_video_search (query : String) (count : Nat) (duration : Option String)
    (collection_id : Option String) (api_key : String) (http : HttpOutcome) : RunOutput :=
  let videos0 := List.replicate count placeholder
  let pending : VideosContent :=
    { status := .progress, status_message := "Searching for videos...", videos := videos0 }
  match search_videos api_key query count duration http with
  | .noRequest e =>
    -- ValueError from search_videos: not a RequestException, so the
    -- except clause does not match and the exception propagates.
    { snapshots := [pending], response := .error e }
  | .request _ (.error e) =>
    match e with
    | .requestException k =>
      { snapshots := [pending,
          { status := .error, status_message := classifyReqExc k, videos := videos0 }]
        response := .ok { status := .ERROR, message := classifyReqExc k, data := [] } }
    | _ =>
      -- RuntimeError from search_videos: not caught, propagates.
      { snapshots := [pending], response := .error e }
  | .request _ (.ok results) =>
    -- st.1 is videos_content.videos after the loop, st.2 is uploaded_videos
    let st := reconcile collection_id results 0 (videos0, [])
    if st.2.isEmpty then
      { snapshots := [pending,
          { status := .error, status_message := "No valid videos found for upload."
            videos := st.1 }]
        response := .ok { status := .ERROR
                          message := "No valid videos were found for upload.", data := [] } }
    else
      { snapshots := [pending,
          { status := .success
            status_message := "Uploaded " ++ toString st.2.length ++ " videos successfully."
            videos := st.1 }]
        response := .ok { status := .SUCCESS
                          message := "Video search and upload completed successfully."
                          data := st.2 } }

/-- The supported engines list. -/
def SUPPORTED_ENGINES : List String := ["serp"]

/-- `WebSearchAgent.run`. `env_key` is `os.getenv("SERP_API_KEY")`
(`none` = unset). Mirrors the source order: engine check, then the
credential check and `SerpAPI` construction, then the `job_type` dispatch. -/
def run (engine job_type query : String) (count : Nat)
    (duration collection_id : Option String) (env_key : Option String)
    (http : HttpOutcome) : RunOutput :=
  if !(SUPPORTED_ENGINES.contains engine) then
    { snapshots := []
      response := .ok { status := .ERROR
                        message := "Engine '" ++ engine ++ "' is not supported.", data := [] } }
  else if !(pyTruthy env_key) then
    { snapshots := []
      response := .ok { status := .ERROR
                        message := "SERP_API_KEY environment variable is not set.", data := [] } }
  else
    -- SerpAPI(api_key) is constructed here; its "API key is required"
    -- ValueError is unreachable because env_key is truthy.
    let api_key := env_key.getD ""
    if job_type == "search_videos" then
      handle_video_search query count duration collection_id api_key http
    else
      { snapshots := []
        response := .ok { status := .ERROR
                          message := "Unsupported job type: " ++ job_type ++ ".", data := [] } }

/-! ## Concrete records used by the theorems -/

/-- A raw result with a watch-page link but a channel-page `video_link`:
it passes the provider filter (the filter only inspects `link`) and is then
skipped by the orchestrator's YouTube recheck. -/
def rSkip : RawResult :=
  { link := some "https://youtube.com/watch?v=zz"
    video_link := some "https://www.youtube.com/c/Chan"
    title := some (some "skipme"), thumbnail := none, duration := none }

/-- A plain valid watch-page raw result. -/
def rOk : RawResult :=
  { link := some "https://youtube.com/watch?v=ok", video_link := none
    title := some (some "good"), thumbnail := none, duration := none }

/-- A raw result whose provider response omitted the `title` key. -/
def rNoTitle : RawResult :=
  { link := some "https://youtube.com/watch?v=a", video_link := none
    title := none, thumbnail := none, duration := none }

/-- A raw result with a link that is neither a channel/user link nor a
watch-page link, and with no `video_link`. -/
def rVimeo : RawResult :=
  { link := some "https://vimeo.com/123", video_link := none
    title := none, thumbnail := none, duration := none }

/-- A valid raw result used by the success-payload witness. -/
def rGood : RawResult :=
  { link := some "https://youtube.com/watch?v=g", video_link := none
    title := some (some "G"), thumbnail := none, duration := none }

/-- The `VideoData` the orchestrator builds from `rGood`. -/
def vGood : VideoData :=
  { external_url := "https://youtube.com/watch?v=g", name := some "G"
    thumbnail_url := none, collection_id := some "col" }

/-- The success response for a run over `[rGood]`. -/
def respGood : AgentResponse :=
  { status := .SUCCESS, message := "Video search and upload completed successfully."
    data := [vGood] }

/-! ## C1 -/

/-- C1 (code bug): the claim says every provider-call failure (transport
failure, timeout, HTTP error after retries, or invalid duration) is caught
by the orchestrator, which emits an error snapshot and returns an error
response. The code instead lets the failure escape: `search_videos` wraps
every `RequestException` in a `RuntimeError` and raises `ValueError` for a
bad duration, while the orchestrator's `except` clause only matches
`requests.exceptions.RequestException` — so the exception propagates
uncaught past `run`, no terminal snapshot is emitted, and the
classification branch is dead code. -/
theorem C1_provider_failure_propagates_uncaught :
    (∀ (query : String) (count : Nat) (cid : Option String) (k : ReqExcKind),
      (run "serp" "search_videos" query count none cid (some "key") (.exc k)).response
        = .error (.runtimeError ("Error during SerpAPI video search: " ++ reqExcStr k))
      ∧ (run "serp" "search_videos" query count none cid (some "key") (.exc k)).snapshots
        = [{ status := .progress, status_message := "Searching for videos..."
             videos := List.replicate count placeholder }])
    ∧ (∀ (query : String) (count : Nat) (cid : Option String),
      (run "serp" "search_videos" query count (some "weird") cid (some "key") (.ok [])).response
        = .error (.valueError "Invalid duration value: weird")
      ∧ (run "serp" "search_videos" query count (some "weird") cid (some "key") (.ok [])).snapshots
        = [{ status := .progress, status_message := "Searching for videos..."
             videos := List.replicate count placeholder }]) :=
  ⟨fun _ _ _ _ => ⟨rfl, rfl⟩, fun _ _ _ => ⟨rfl, rfl⟩⟩

/-! ## C2 -/

/-- C2 (counterexample): the claim says a skipped raw result leaves the
slot index unadvanced, so the next raw result targets the same slot. In
the code the loop index is the `enumerate` index: with raw results
`[rSkip, rOk]` and two placeholder slots, `rOk` fills slot 1 — slot 0
stays a placeholder, so the index did advance past the skipped result. -/
theorem C2_skip_advances_slot_index :
    (handle_video_search "q" 2 none none "k" (.ok [rSkip, rOk])).snapshots.getLast?
      = some { status := .success, status_message := "Uploaded 1 videos successfully."
               videos := [placeholder,
                 { external_url := "https://youtube.com/watch?v=ok", name := some "good"
                   thumbnail_url := none, collection_id := none }] } := rfl

/-- C2 (amended): when a raw result is skipped by the YouTube
channel/user/collection recheck, the slot at the current index remains
untouched and nothing is uploaded, but the iteration moves on to the next
raw result at the NEXT slot index (the enumerate index advances with every
raw result, skipped or not). -/
theorem C2_amended_skip_keeps_slot_advances_index
    (cid : Option String) (r : RawResult) (rest : List RawResult) (idx : Nat)
    (videos uploaded : List VideoData)
    (hskip : isNonVideoYoutube (extUrl r) = true) :
    reconcile cid (r :: rest) idx (videos, uploaded)
      = reconcile cid rest (idx + 1) (videos, uploaded) := by
  have hp : processResult cid (videos, uploaded) idx r = (videos, uploaded) := by
    unfold processResult
    simp [hskip]
  rw [reconcile, hp]

/-- C2 witness: the amended theorem applied to the concrete skipped
record `rSkip` at slot 0. -/
theorem C2_amended_witness :
    reconcile none [rSkip, rOk] 0 (List.replicate 2 placeholder, [])
      = reconcile none [rOk] 1 (List.replicate 2 placeholder, []) :=
  C2_amended_skip_keeps_slot_advances_index none rSkip [rOk] 0
    (List.replicate 2 placeholder) [] (by decide)

/-! ## C3 -/

/-- C3 (counterexample): the claim says an unsupported `jobType` is
rejected with the UnsupportedJobType error before the credential check,
regardless of whether the access key is configured. In the code the
credential check runs first: with the key unset and `job_type = "bogus"`,
`run` returns the missing-credentials error, not the job-type error. -/
theorem C3_credential_check_precedes_jobtype :
    (run "serp" "bogus" "q" 5 none none none (.ok [])).response
      = .ok { status := .ERROR
              message := "SERP_API_KEY environment variable is not set.", data := [] } := rfl

/-- C3 (amended): with a configured (truthy) access key, any `job_type`
other than "search_videos" fails immediately with the unsupported-job-type
error and no snapshot is emitted; but the credential check and the
provider construction happen before the job-type check, so with the key
unset the run fails with the missing-credentials error instead. -/
theorem C3_amended_unsupported_jobtype
    (job_type query : String) (count : Nat) (dur cid : Option String)
    (key : String) (http : HttpOutcome)
    (hjt : job_type ≠ "search_videos") (hkey : key ≠ "") :
    run "serp" job_type query count dur cid (some key) http
      = { snapshots := []
          response := .ok { status := .ERROR
                            message := "Unsupported job type: " ++ job_type ++ "."
                            data := [] } } := by
  unfold run
  simp [SUPPORTED_ENGINES, pyTruthy, hkey, hjt]

/-- C3 witness: the amended theorem at `job_type = "bogus"` with a
configured key. -/
theorem C3_amended_witness :
    run "serp" "bogus" "q" 5 none none (some "k") (.ok [])
      = { snapshots := []
          response := .ok { status := .ERROR
                            message := "Unsupported job type: " ++ "bogus" ++ "."
                            data := [] } } :=
  C3_amended_unsupported_jobtype "bogus" "q" 5 none none "k" (.ok [])
    (by decide) (by decide)

/-! ## C4 -/

/-- C4 (code bug): the claim says a result without a provider title gets
the name "Untitled Video". The orchestrator writes
`video.get("title", "Untitled Video")`, but `search_videos` always stores
a `"title"` key (`result.get("title")`, i.e. `None` when absent), so the
default never applies: for a raw result whose `title` key is absent the
constructed `VideoData` carries Python `None` as its name. -/
theorem C4_missing_title_yields_none_name :
    (handle_video_search "q" 1 none (some "col") "k" (.ok [rNoTitle])).response
      = .ok { status := .SUCCESS
              message := "Video search and upload completed successfully."
              data := [{ external_url := "https://youtube.com/watch?v=a", name := none
                         thumbnail_url := none, collection_id := some "col" }] }
    ∧ (none : Option String) ≠ some "Untitled Video" :=
  ⟨rfl, by decide⟩

/-! ## C5 -/

/-- Whether a duration argument gets past the guard in `search_videos`
(`None` and `""` are falsy; otherwise it must be in the mapping). -/
def durationAccepted : Option String → Bool
  | none => true
  | some d => d == "" || (duration_mapping d).isSome

/-- An accepted duration means `search_videos` issues the request and
returns the filter of whatever the transport produced. -/
theorem search_videos_ok (key query : String) (count : Nat) (dur : Option String)
    (http : HttpOutcome) (hdur : durationAccepted dur = true) :
    ∃ p, search_videos key query count dur http = .request p (serpTryBlock http) := by
  cases dur with
  | none => exact ⟨_, rfl⟩
  | some d =>
    unfold search_videos
    by_cases he : (d == "") = true
    · simp [he]
    · simp only [durationAccepted, he, Bool.false_or] at hdur
      cases hm : duration_mapping d with
      | none => rw [hm] at hdur; simp at hdur
      | some code =>
        simp only [he, Bool.not_false, if_true, hm]
        exact ⟨_, rfl⟩

/-- C5 (counterexample): the claim says both the final snapshot and the
returned response carry exactly "No valid videos were found for upload.".
The snapshot's message is "No valid videos found for upload." (no "were");
only the returned response carries the claimed text. -/
theorem C5_snapshot_message_differs :
    (handle_video_search "q" 1 none none "k" (.ok [])).snapshots.getLast?
      = some { status := .error, status_message := "No valid videos found for upload."
               videos := List.replicate 1 placeholder }
    ∧ "No valid videos found for upload." ≠ "No valid videos were found for upload." :=
  ⟨rfl, by decide⟩

/-- C5 (amended): when the provider call succeeds but no result is
successfully filled, the run ends with status error; the returned response
message is exactly "No valid videos were found for upload." while the
final snapshot's message is "No valid videos found for upload.". -/
theorem C5_amended_empty_results_error
    (query : String) (count : Nat) (dur cid : Option String) (key : String)
    (raws : List RawResult)
    (hdur : durationAccepted dur = true)
    (hemp : (reconcile cid (filterResults raws) 0 (List.replicate count placeholder, [])).2 = []) :
    (handle_video_search query count dur cid key (.ok raws)).response
      = .ok { status := .ERROR, message := "No valid videos were found for upload."
              data := [] }
    ∧ (handle_video_search query count dur cid key (.ok raws)).snapshots.getLast?
      = some { status := .error, status_message := "No valid videos found for upload."
               videos := (reconcile cid (filterResults raws) 0
                 (List.replicate count placeholder, [])).1 } := by
  obtain ⟨p, hp⟩ := search_videos_ok key query count dur (.ok raws) hdur
  unfold handle_video_search
  rw [hp]
  simp [serpTryBlock, hemp]

/-- C5 witness: the amended theorem at a concrete empty result list. -/
theorem C5_amended_witness :
    (handle_video_search "q" 1 none none "k" (.ok [])).response
      = .ok { status := .ERROR, message := "No valid videos were found for upload."
              data := [] }
    ∧ (handle_video_search "q" 1 none none "k" (.ok [])).snapshots.getLast?
      = some { status := .error, status_message := "No valid videos found for upload."
               videos := (reconcile none (filterResults []) 0
                 (List.replicate 1 placeholder, [])).1 } :=
  C5_amended_empty_results_error "q" 1 none none "k" [] (by decide) (by decide)

/-! ## C6 -/

/-- C6 (counterexample): the claim says any raw result list free of
channel/user links is left unchanged by the filter. `rVimeo` has no
channel/user substring in its link, yet the filter drops it (its link has
no watch-page marker and it has no `video_link`). -/
theorem C6_channel_free_list_not_fixed :
    strContains (rVimeo.link.getD "") "channel" = false
    ∧ strContains (rVimeo.link.getD "") "user" = false
    ∧ filterResults [rVimeo] ≠ [rVimeo] := by
  decide

/-- A record produced by the filter passes the filter again unchanged. -/
theorem filterOne_fixed (r r' : RawResult) (h : filterOne r = some r') :
    filterOne r' = some r' := by
  unfold filterOne at h
  by_cases h1 : (strContains (r.link.getD "") "channel"
      || strContains (r.link.getD "") "user") = true
  · rw [if_pos h1] at h
    exact Option.noConfusion h
  · rw [if_neg h1] at h
    by_cases h2 : (strContains (r.link.getD "") "youtube.com/watch"
        || !(r.video_link.getD "" == "")) = true
    · rw [if_pos h2] at h
      injection h with h
      subst h
      unfold filterOne
      simp only [Option.getD_some, dictGet]
      rw [if_neg h1, if_pos h2]
    · rw [if_neg h2] at h
      exact Option.noConfusion h

/-- C6 (amended): the filter is idempotent as a function — running the
filtered output through the filter again changes nothing — but a list
merely free of channel/user links is not in general a fixed point (records
can still be dropped by the watch-page/video-link condition, and kept
records are rebuilt with defaulted keys). -/
theorem C6_amended_filter_idempotent (l : List RawResult) :
    filterResults (filterResults l) = filterResults l := by
  unfold filterResults
  rw [List.filterMap_filterMap]
  congr 1
  funext r
  cases hr : filterOne r with
  | none => simp [hr]
  | some r' => simp [hr, filterOne_fixed r r' hr]

/-! ## C8 -/

/-- C8 (counterexample): the claim says every present duration value
outside {short, medium, long} fails with InvalidArgument before any
network request. The guard is `if duration:`, which is falsy for the
present value `""`: the call issues the network request (with no `tbs`
filter) instead of failing. -/
theorem C8_empty_duration_not_rejected :
    search_videos "k" "q" 5 (some "") (.ok [])
      = .request { q := "q", tbm := "vid", num := 5, hl := "en", gl := "us"
                   api_key := "k", tbs := none } (.ok []) := rfl

/-- C8 (amended): every truthy (non-empty) duration value outside the
mapping fails with `ValueError` before any network request is issued, and
no `tbs` filter is ever attached for it; the empty string, though present
and invalid, is treated as absent. -/
theorem C8_amended_invalid_duration_rejected
    (key query : String) (count : Nat) (d : String) (http : HttpOutcome)
    (hne : d ≠ "") (hmap : duration_mapping d = none) :
    search_videos key query count (some d) http
      = .noRequest (.valueError ("Invalid duration value: " ++ d)) := by
  unfold search_videos
  simp [hne, hmap]

/-- C8 witness: the amended theorem at the invalid value "tiny". -/
theorem C8_amended_witness :
    search_videos "k" "q" 5 (some "tiny") (.ok [])
      = .noRequest (.valueError ("Invalid duration value: " ++ "tiny")) :=
  C8_amended_invalid_duration_rejected "k" "q" 5 "tiny" (.ok []) (by decide) rfl

/-! ## C7 -/

/-- Every branch of `_handle_video_search` emits the pending snapshot
first: `count` placeholders and the searching message. -/
theorem handle_snapshots_head (query : String) (count : Nat) (dur cid : Option String)
    (key : String) (http : HttpOutcome) :
    ∃ t, (handle_video_search query count dur cid key http).snapshots
      = { status := MsgStatus.progress, status_message := "Searching for videos..."
          videos := List.replicate count placeholder } :: t := by
  unfold handle_video_search
  split
  · exact ⟨_, rfl⟩
  · split
    all_goals exact ⟨_, rfl⟩
  · dsimp only
    split
    all_goals exact ⟨_, rfl⟩

/-- C7 (confirmed): for every count in [1,50], the pending snapshot
emitted before the provider call carries the message
"Searching for videos..." and exactly `count` placeholder results, each
with empty external url and name "Loading...". -/
theorem C7_pending_snapshot (query : String) (count : Nat) (dur cid : Option String)
    (key : String) (http : HttpOutcome) (_hlo : 1 ≤ count) (_hhi : count ≤ 50) :
    (handle_video_search query count dur cid key http).snapshots.head?
      = some { status := .progress, status_message := "Searching for videos..."
               videos := List.replicate count placeholder }
    ∧ (List.replicate count placeholder).length = count
    ∧ ∀ v ∈ List.replicate count placeholder,
        v.external_url = "" ∧ v.name = some "Loading..." := by
  obtain ⟨t, ht⟩ := handle_snapshots_head query count dur cid key http
  refine ⟨?_, List.length_replicate count placeholder, ?_⟩
  · rw [ht]
    rfl
  · intro v hv
    rw [List.eq_of_mem_replicate hv]
    exact ⟨rfl, rfl⟩

/-- C7 witness: the pending-snapshot theorem at count = 3. -/
theorem C7_pending_snapshot_witness :
    (handle_video_search "q" 3 none none "k" (.ok [])).snapshots.head?
      = some { status := .progress, status_message := "Searching for videos..."
               videos := List.replicate 3 placeholder }
    ∧ (List.replicate 3 placeholder).length = 3
    ∧ ∀ v ∈ List.replicate 3 placeholder,
        v.external_url = "" ∧ v.name = some "Loading..." :=
  C7_pending_snapshot "q" 3 none none "k" (.ok []) (by decide) (by decide)

/-! ## C9 -/

/-- The retry loop performs at most `fuel + 1` further attempts. -/
theorem retryGo_attempts_le (cfg : RetryConfig) (fn : Nat → AttemptResult) :
    ∀ fuel i, (retryGo cfg fn fuel i).1 ≤ i + fuel + 1 := by
  intro fuel
  induction fuel with
  | zero =>
    intro i
    rw [retryGo]
    cases fn i with
    | transportFailure =>
      show i + 1 ≤ i + 0 + 1
      omega
    | status c =>
      dsimp only
      by_cases hc : cfg.status_forcelist.contains c = true
      · rw [if_pos hc]
      · rw [if_neg hc]
  | succ n ih =>
    intro i
    rw [retryGo]
    cases fn i with
    | transportFailure =>
      calc (retryGo cfg fn n (i + 1)).1 ≤ (i + 1) + n + 1 := ih (i + 1)
        _ = i + (n + 1) + 1 := by omega
    | status c =>
      dsimp only
      by_cases hc : cfg.status_forcelist.contains c = true
      · rw [if_pos hc]
        calc (retryGo cfg fn n (i + 1)).1 ≤ (i + 1) + n + 1 := ih (i + 1)
          _ = i + (n + 1) + 1 := by omega
      · rw [if_neg hc]
        show i + 1 ≤ i + (n + 1) + 1
        omega

/-- A non-forcelist status on the first attempt is returned immediately:
one attempt, no retry. -/
theorem retryGo_non_forcelist (fn : Nat → AttemptResult) (c : Nat)
    (hc : serpRetryConfig.status_forcelist.contains c = false)
    (h0 : fn 0 = .status c) :
    runWithRetries serpRetryConfig fn = (1, some c) := by
  show retryGo serpRetryConfig fn 3 0 = (1, some c)
  rw [retryGo, h0]
  dsimp only
  rw [if_neg (by rw [hc]; exact Bool.false_ne_true)]

/-- The spec's provider mock failing with HTTP 503 twice, then succeeding. -/
def mock503TwiceThen200 : Nat → AttemptResult :=
  fun i => if i < 2 then .status 503 else .status 200

/-- The spec's provider mock failing with HTTP 503 on every attempt. -/
def mockAlways503 : Nat → AttemptResult :=
  fun _ => .status 503

/-- C9 (confirmed): the configured retry policy makes at most 3 retries
(4 attempts total); a non-forcelist status is never retried (one attempt);
two 503s followed by a success yield the success on the third attempt;
four consecutive 503s exhaust the budget (4 attempts, no 5th) and the
exhaustion surfaces as a `RetryError` that `search_videos` re-raises as
its transport `RuntimeError`; the backoff is exponential with factor 1. -/
theorem C9_retry_policy :
    serpRetryConfig = { total := 3, backoff_factor := 1
                        status_forcelist := [429, 500, 502, 503, 504] }
    ∧ (∀ fn : Nat → AttemptResult, (runWithRetries serpRetryConfig fn).1 ≤ 4)
    ∧ (∀ (fn : Nat → AttemptResult) (c : Nat),
        serpRetryConfig.status_forcelist.contains c = false →
        fn 0 = .status c → runWithRetries serpRetryConfig fn = (1, some c))
    ∧ runWithRetries serpRetryConfig mock503TwiceThen200 = (3, some 200)
    ∧ runWithRetries serpRetryConfig mockAlways503 = (4, none)
    ∧ (∀ body, sessionOutcome (runWithRetries serpRetryConfig mockAlways503) body
        = .exc .retryError)
    ∧ (∀ (key query : String) (count : Nat),
        search_videos key query count none (.exc .retryError)
          = .request { q := query, tbm := "vid", num := count, hl := "en", gl := "us"
                       api_key := key, tbs := none }
              (.error (.runtimeError "Error during SerpAPI video search: RetryError")))
    ∧ backoffTime serpRetryConfig 1 = 1 ∧ backoffTime serpRetryConfig 2 = 2
    ∧ backoffTime serpRetryConfig 3 = 4 := by
  refine ⟨rfl, ?_, ?_, rfl, rfl, fun _ => rfl, fun _ _ _ => rfl, rfl, rfl, rfl⟩
  · intro fn
    exact retryGo_attempts_le serpRetryConfig fn 3 0
  · exact retryGo_non_forcelist

/-- C9 witness: a non-forcelist status (404) is not retried. -/
theorem C9_retry_policy_witness :
    runWithRetries serpRetryConfig (fun _ => AttemptResult.status 404) = (1, some 404) :=
  C9_retry_policy.2.2.1 (fun _ => AttemptResult.status 404) 404 (by decide) rfl

/-! ## C10 -/

/-- `search_videos` either raises before the request or issues the request
and returns whatever the try block produced. -/
theorem search_videos_cases (key query : String) (count : Nat) (dur : Option String)
    (http : HttpOutcome) :
    (∃ e, search_videos key query count dur http = .noRequest e)
    ∨ (∃ p, search_videos key query count dur http = .request p (serpTryBlock http)) := by
  unfold search_videos
  cases dur with
  | none => exact Or.inr ⟨_, rfl⟩
  | some d =>
    dsimp only
    by_cases he : (d == "") = true
    · rw [he, if_neg (by decide)]
      exact Or.inr ⟨_, rfl⟩
    · rw [Bool.not_eq_true] at he
      rw [he, if_pos (by decide)]
      cases hm : duration_mapping d with
      | none => exact Or.inl ⟨_, rfl⟩
      | some code => exact Or.inr ⟨_, rfl⟩

/-- Shape of a record kept by the provider filter: both link keys are
present as strings, and the keep condition held for their values. -/
theorem filterOne_shape (r r' : RawResult) (h : filterOne r = some r') :
    r'.link = some (r.link.getD "") ∧ r'.video_link = some (r.video_link.getD "")
    ∧ (strContains (r.link.getD "") "youtube.com/watch"
        || !(r.video_link.getD "" == "")) = true := by
  unfold filterOne at h
  by_cases h1 : (strContains (r.link.getD "") "channel"
      || strContains (r.link.getD "") "user") = true
  · rw [if_pos h1] at h
    exact Option.noConfusion h
  · rw [if_neg h1] at h
    by_cases h2 : (strContains (r.link.getD "") "youtube.com/watch"
        || !(r.video_link.getD "" == "")) = true
    · rw [if_pos h2] at h
      injection h with h
      subst h
      exact ⟨rfl, rfl, h2⟩
    · rw [if_neg h2] at h
      exact Option.noConfusion h

/-- A string containing "youtube.com/watch" is not empty. -/
theorem watch_link_ne_empty (l : String)
    (h : strContains l "youtube.com/watch" = true) : l ≠ "" := by
  intro heq
  subst heq
  exact absurd h (by decide)

/-- For a provider-filtered record, the orchestrator's external url is
non-empty: the `video_link` when truthy, otherwise the primary link, which
then contains the watch-page marker. -/
theorem extUrl_of_filtered (r r' : RawResult) (h : filterOne r = some r') :
    extUrl r' ≠ ""
    ∧ (pyTruthy r'.video_link = true → r'.video_link = some (extUrl r'))
    ∧ (pyTruthy r'.video_link = false →
        r'.link = some (extUrl r')
        ∧ strContains (extUrl r') "youtube.com/watch" = true) := by
  obtain ⟨hl, hw, hkeep⟩ := filterOne_shape r r' h
  by_cases hv : pyTruthy r'.video_link = true
  · have hurl : extUrl r' = r.video_link.getD "" := by
      unfold extUrl pyOr
      rw [if_pos hv, hw]
      rfl
    have hne : r.video_link.getD "" ≠ "" := by
      intro heq
      rw [hw, heq] at hv
      exact absurd hv (by decide)
    refine ⟨by rw [hurl]; exact hne, fun _ => ?_, fun hf => absurd hv (by rw [hf]; decide)⟩
    rw [hurl, hw]
  · have hv' : pyTruthy r'.video_link = false := by
      rw [Bool.not_eq_true] at hv
      exact hv
    have hurl : extUrl r' = r.link.getD "" := by
      unfold extUrl pyOr
      rw [if_neg hv, hl]
      rfl
    have hwe : r.video_link.getD "" = "" := by
      rw [hw] at hv'
      simp only [pyTruthy] at hv'
      cases hb : (r.video_link.getD "" == "") with
      | true => exact eq_of_beq hb
      | false => rw [hb] at hv'; exact absurd hv' (by decide)
    have hwatch : strContains (r.link.getD "") "youtube.com/watch" = true := by
      rw [hwe] at hkeep
      simpa using hkeep
    refine ⟨?_, fun ht => absurd ht hv, fun _ => ⟨?_, ?_⟩⟩
    · rw [hurl]
      exact watch_link_ne_empty _ hwatch
    · rw [hurl, hl]
    · rw [hurl]
      exact hwatch

/-- Every video in the reconciliation's uploaded list either was already
there or was constructed from one of the raw results. -/
theorem reconcile_uploaded_mem (cid : Option String) :
    ∀ (results : List RawResult) (idx : Nat) (videos uploaded : List VideoData)
      (v : VideoData), v ∈ (reconcile cid results idx (videos, uploaded)).2 →
      v ∈ uploaded ∨ ∃ r ∈ results, v = mkVideoData cid r := by
  intro results
  induction results with
  | nil =>
    intro idx videos uploaded v hv
    exact Or.inl hv
  | cons r rest ih =>
    intro idx videos uploaded v hv
    rw [reconcile] at hv
    unfold processResult at hv
    dsimp only at hv
    by_cases hlt : idx < videos.length
    · rw [if_pos hlt] at hv
      by_cases hskip : isNonVideoYoutube (extUrl r) = true
      · rw [if_pos hskip] at hv
        rcases ih _ _ _ _ hv with h | ⟨r', hr', he⟩
        · exact Or.inl h
        · exact Or.inr ⟨r', List.mem_cons_of_mem _ hr', he⟩
      · rw [if_neg hskip] at hv
        rcases ih _ _ _ _ hv with h | ⟨r', hr', he⟩
        · rcases List.mem_append.mp h with h' | h'
          · exact Or.inl h'
          · exact Or.inr ⟨r, List.mem_cons_self r rest, List.mem_singleton.mp h'⟩
        · exact Or.inr ⟨r', List.mem_cons_of_mem _ hr', he⟩
    · rw [if_neg hlt] at hv
      rcases ih _ _ _ _ hv with h | ⟨r', hr', he⟩
      · exact Or.inl h
      · exact Or.inr ⟨r', List.mem_cons_of_mem _ hr', he⟩

/-- C10 (confirmed): every `VideoData` in the success response's uploaded
list has a non-empty external url (the `video_link` when truthy, otherwise
the primary link, which then contains the watch-page marker), carries the
request's collection id, and is not a "Loading..." placeholder; it is
constructed from one of the provider-filtered raw results. -/
theorem C10_success_payload_invariant
    (query : String) (count : Nat) (dur cid : Option String) (key : String)
    (raws : List RawResult) (resp : AgentResponse) (v : VideoData)
    (hresp : (handle_video_search query count dur cid key (.ok raws)).response = .ok resp)
    (hst : resp.status = .SUCCESS) (hv : v ∈ resp.data) :
    v.collection_id = cid ∧ v.external_url ≠ "" ∧ v ≠ placeholder
    ∧ ∃ r ∈ filterResults raws,
        v = mkVideoData cid r
        ∧ (pyTruthy r.video_link = true → r.video_link = some v.external_url)
        ∧ (pyTruthy r.video_link = false →
            r.link = some v.external_url
            ∧ strContains v.external_url "youtube.com/watch" = true) := by
  rcases search_videos_cases key query count dur (.ok raws) with ⟨e, he⟩ | ⟨p, hp⟩
  · unfold handle_video_search at hresp
    rw [he] at hresp
    exact Except.noConfusion hresp
  · unfold handle_video_search at hresp
    rw [hp] at hresp
    dsimp only [serpTryBlock] at hresp
    by_cases hemp :
        (reconcile cid (filterResults raws) 0 (List.replicate count placeholder, [])).2.isEmpty = true
    · rw [if_pos hemp] at hresp
      injection hresp with hresp
      rw [← hresp] at hst
      exact AgentStatus.noConfusion hst
    · rw [if_neg hemp] at hresp
      injection hresp with hresp
      rw [← hresp] at hv
      have hmem := reconcile_uploaded_mem cid (filterResults raws) 0
        (List.replicate count placeholder) [] v hv
      rcases hmem with h | ⟨r, hr, hvr⟩
      · exact absurd h (List.not_mem_nil v)
      · obtain ⟨a, _, ha⟩ := List.mem_filterMap.mp hr
        obtain ⟨hne, htru, hfal⟩ := extUrl_of_filtered a r ha
        have hurl : v.external_url = extUrl r := by
          rw [hvr]
          rfl
        refine ⟨by rw [hvr]; rfl, by rw [hurl]; exact hne, ?_, r, hr, hvr, ?_, ?_⟩
        · intro hpl
          rw [hpl] at hurl
          exact hne (by rw [← hurl]; rfl)
        · intro ht
          rw [hurl]
          exact htru ht
        · intro hf
          rw [hurl]
          exact hfal hf

/-- C10 witness: the invariant applied to a concrete successful run over
one valid raw result. -/
theorem C10_success_payload_invariant_witness :
    vGood.collection_id = some "col" ∧ vGood.external_url ≠ "" ∧ vGood ≠ placeholder
    ∧ ∃ r ∈ filterResults [rGood],
        vGood = mkVideoData (some "col") r
        ∧ (pyTruthy r.video_link = true → r.video_link = some vGood.external_url)
        ∧ (pyTruthy r.video_link = false →
            r.link = some vGood.external_url
            ∧ strContains vGood.external_url "youtube.com/watch" = true) :=
  C10_success_payload_invariant "cats" 1 none (some "col") "k" [rGood] respGood vGood
    rfl rfl (by decide)

end Director
